import Mathlib

/-!
Shallow embedding of the expert-system core of `scheduleApplication`
(`src/expert_system/rules.py` and `src/expert_system/inference_engine.py`).

Conventions of the embedding:
* Times and minute quantities are rationals (`ℚ`): every arithmetic
  operation the Python code performs on them (subtraction, division by 60,
  comparison, `int(...)` truncation) is exact on the inputs the program
  manipulates, so `ℚ` is a faithful carrier.
* Python's `int(x)` on a float truncates toward zero; `truncQ` below is
  its `ℚ` counterpart.
* A `datetime` is represented by its timestamp in minutes (`ℚ`): the rules
  only ever subtract two of them and divide by 60, so only the affine
  time line matters.  `start_time`/`end_time` are stored already in
  minutes, i.e. `(curr_start - prev_end).total_seconds() / 60` becomes
  plain subtraction.
* `Violation.description` (a formatted Czech string) and the purely
  informational timestamp entries of `Violation.details` are not modelled;
  of `details` we keep the entry that feeds the weight computation
  (`excess_minutes` / `shortage_minutes`).
* Python dictionaries keep insertion order; a `dict` is modelled as an
  association list `List (key × value)` with keys in insertion order.
-/

namespace ScheduleApp

/-! ## Severity (rules.py, class Severity) -/

/-- `Severity` enum of `rules.py`: critical / medium / low, declared in this
order (Python iterates enum members in declaration order). -/
inductive Severity where
  | critical
  | medium
  | low
deriving DecidableEq, Repr

/-- Iteration order `for severity in Severity` of the Python enum. -/
def Severity.members : List Severity := [.critical, .medium, .low]

/-! ## Data model (classes/, reduced to the fields the rules read) -/

/-- `Competition` vertex; the rules only read `discipline` (and `name` only
for display, kept for completeness). -/
structure Competition where
  discipline : String
  name : String
deriving DecidableEq, Repr

/-- `Performance` vertex: start/end instants in minutes, duration in
minutes, and the optional back-reference to its competition.
`round_type` is never read by the rules and is omitted. -/
structure Performance where
  start_time : ℚ
  end_time : ℚ
  duration : ℚ
  competition : Option Competition
deriving DecidableEq, Repr

/-- `Competitor` with the fields the rules read (`id`, `full_name_1`,
`performances`). -/
structure Competitor where
  id : String
  full_name_1 : String
  performances : List Performance
deriving DecidableEq, Repr

/-- `Jury` with the fields the rules read. -/
structure Jury where
  id : String
  name : String
  performances : List Performance
deriving DecidableEq, Repr

/-- The part of `ScheduleGraph` the engine consumes: `get_competitors()`
and `get_juries()`. -/
structure ScheduleGraph where
  competitors : List Competitor
  juries : List Jury
deriving DecidableEq, Repr

/-! ## Rule configuration (YAML, fully populated form) -/

/-- `thresholds: {critical, medium, low}` of a rule section. -/
structure Thresholds where
  critical : ℚ
  medium : ℚ
  low : ℚ
deriving DecidableEq, Repr

/-- `weights: {base_critical, base_medium, base_low, coefficient_per_minute}`
of a rule section.  In the source `coefficient_per_minute` is read with
`weights.get('coefficient_per_minute', 0)`; this structure is the
fully-populated form, the partial form used for the configuration-error
analysis appears further below. -/
structure Weights where
  base_critical : ℚ
  base_medium : ℚ
  base_low : ℚ
  coefficient_per_minute : ℚ
deriving DecidableEq, Repr

/-- A rule section with every key the four rules read present.
`disciplines` and `min_gap_minutes` are only read by the costume-change
rule. -/
structure RuleConfig where
  enabled : Bool
  thresholds : Thresholds
  weights : Weights
  disciplines : List String
  min_gap_minutes : ℚ
deriving DecidableEq, Repr

/-- `weights[f'base_{severity.value}']`. -/
def baseWeight (w : Weights) : Severity → ℚ
  | .critical => w.base_critical
  | .medium => w.base_medium
  | .low => w.base_low

/-- `self.config['thresholds'][severity.value]`. -/
def thresholdOf (t : Thresholds) : Severity → ℚ
  | .critical => t.critical
  | .medium => t.medium
  | .low => t.low

/-- Python's `int(x)` on a float/rational: truncation toward zero. -/
def truncQ (q : ℚ) : ℤ :=
  if q < 0 then ⌈q⌉ else ⌊q⌋

/-- `Rule._get_severity` (rules.py:68-99), over an explicit `thresholds`
dictionary.  Note that `value = int(value)` happens in BOTH modes. -/
def getSeverityT (t : Thresholds) (value : ℚ) (reverse : Bool) : Option Severity :=
  let v : ℚ := (truncQ value : ℤ)
  if reverse then
    if v ≤ t.critical then some .critical
    else if v ≤ t.medium then some .medium
    else if v ≤ t.low then some .low
    else none
  else
    if v ≥ t.critical then some .critical
    else if v ≥ t.medium then some .medium
    else if v ≥ t.low then some .low
    else none

/-- `Rule._get_severity` reading `self.config['thresholds']`. -/
def getSeverity (cfg : RuleConfig) (value : ℚ) (reverse : Bool) : Option Severity :=
  getSeverityT cfg.thresholds value reverse

/-- `Rule._calculate_weight` (rules.py:53-66):
`base_weight + excess * coefficient`. -/
def calculateWeight (cfg : RuleConfig) (severity : Severity) (excess : ℚ) : ℚ :=
  baseWeight cfg.weights severity + excess * cfg.weights.coefficient_per_minute

/-- `Violation` record; `description` and the timestamp detail entries are
not modelled, `excess_minutes` is the `details` entry that was passed as
`excess` to `_calculate_weight` (named `shortage_minutes` in the
costume-change rule). -/
structure Violation where
  rule_name : String
  severity : Severity
  weight : ℚ
  entity_id : String
  entity_name : String
  excess_minutes : ℚ
deriving DecidableEq, Repr

/-! ## Sorting performances by start time

`sorted(performances, key=lambda p: p.start_time)` — Python's stable
ascending sort.  Stable insertion sort: each element of the input is
inserted, in input order, after all already-placed elements whose key is
`≤` its own. -/

/-- Insert `p` before the first element with a strictly larger start time
(so that elements with equal keys keep their input order). -/
def insertByStart (p : Performance) : List Performance → List Performance
  | [] => [p]
  | q :: qs =>
    if p.start_time < q.start_time then p :: q :: qs
    else q :: insertByStart p qs

/-- Stable sort of a performance list by ascending `start_time`. -/
def sortPerfs (ps : List Performance) : List Performance :=
  ps.foldl (fun acc p => insertByStart p acc) []

/-! ## Continuous-block walk (shared loop body of
`MaxContinuousDancingRule.check`, rules.py:161-192, and
`MaxContinuousJudgingRule.check`, rules.py:335-361 — the two loops are
textually identical up to variable names). -/

/-- `(curr_start - prev_end).total_seconds() / 60` in minutes. -/
def gapQ (prev curr : Performance) : ℚ :=
  curr.start_time - prev.end_time

/-- The loop of the two continuous-block rules, started after the first
performance: `dur` is `continuous_duration`, `bstart` is `block_start`,
`last` is the previously visited performance (`prev`).  Returns the
closed blocks in emission order as `(duration, block_start, block_end)`;
the final block is always closed once after the loop
(rules.py:187-192 / 356-361). -/
def blocksAux : List Performance → ℚ → Performance → Performance →
    List (ℚ × Performance × Performance)
  | [], dur, bstart, last => [(dur, bstart, last)]
  | curr :: rest, dur, bstart, last =>
    if gapQ last curr < 10 then
      blocksAux rest (dur + curr.duration) bstart curr
    else
      (dur, bstart, last) :: blocksAux rest curr.duration curr curr

/-- Maximal continuous blocks of a sorted performance list
(`continuous_duration = performances[0].duration` seeds the walk). -/
def blocksOf : List Performance → List (ℚ × Performance × Performance)
  | [] => []
  | p :: rest => blocksAux rest p.duration p p

/-! ## MaxContinuousDancingRule -/

/-- `MaxContinuousDancingRule._check_duration` (rules.py:196-232).
Severity is decided on the truncated duration (`_get_severity` truncates),
then `duration = int(duration)` and `excess = duration - threshold`. -/
def checkDuration (cfg : RuleConfig) (competitor : Competitor) (duration : ℚ) :
    Option Violation :=
  match getSeverity cfg duration false with
  | none => none
  | some severity =>
    let d : ℚ := (truncQ duration : ℤ)
    let threshold := thresholdOf cfg.thresholds severity
    let excess := d - threshold
    some
      { rule_name := "MaxContinuousDancing"
        severity := severity
        weight := calculateWeight cfg severity excess
        entity_id := competitor.id
        entity_name := competitor.full_name_1
        excess_minutes := excess }

/-- Per-competitor body of `MaxContinuousDancingRule.check`
(rules.py:147-192): sort, skip when fewer than 2 performances, walk the
blocks and classify each closed block. -/
def dancingCheckCompetitor (cfg : RuleConfig) (c : Competitor) : List Violation :=
  let performances := sortPerfs c.performances
  if performances.length < 2 then []
  else (blocksOf performances).filterMap fun b => checkDuration cfg c b.1

/-- `MaxContinuousDancingRule.check` (rules.py:131-194). -/
def maxContinuousDancingCheck (cfg : RuleConfig) (graph : ScheduleGraph) :
    List Violation :=
  if ¬ cfg.enabled then []
  else (graph.competitors.map (dancingCheckCompetitor cfg)).flatten

/-! ## MaxContinuousJudgingRule -/

/-- `MaxContinuousJudgingRule._check_judging_duration` (rules.py:365-400).
Unlike the dancing variant there is NO `duration = int(duration)` line:
`excess = duration - threshold` uses the raw duration. -/
def checkJudgingDuration (cfg : RuleConfig) (jury : Jury) (duration : ℚ) :
    Option Violation :=
  match getSeverity cfg duration false with
  | none => none
  | some severity =>
    let threshold := thresholdOf cfg.thresholds severity
    let excess := duration - threshold
    some
      { rule_name := "MaxContinuousJudging"
        severity := severity
        weight := calculateWeight cfg severity excess
        entity_id := jury.id
        entity_name := jury.name
        excess_minutes := excess }

/-- Per-jury body of `MaxContinuousJudgingRule.check` (rules.py:322-361):
only EMPTY performance lists are skipped (`if not jury.performances`);
there is no `< 2` skip here. -/
def judgingCheckJury (cfg : RuleConfig) (j : Jury) : List Violation :=
  if j.performances.isEmpty then []
  else (blocksOf (sortPerfs j.performances)).filterMap fun b =>
    checkJudgingDuration cfg j b.1

/-- `MaxContinuousJudgingRule.check` (rules.py:306-363). -/
def maxContinuousJudgingCheck (cfg : RuleConfig) (graph : ScheduleGraph) :
    List Violation :=
  if ¬ cfg.enabled then []
  else (graph.juries.map (judgingCheckJury cfg)).flatten

/-! ## CostumeChangeTimeRule -/

/-- The eligibility test of rules.py:266-269: both performances linked to a
competition, both disciplines inside the configured set, and the two
disciplines different. -/
def eligiblePair (disciplines : List String) (curr next_perf : Performance) : Bool :=
  match curr.competition, next_perf.competition with
  | some c1, some c2 =>
    decide (c1.discipline ∈ disciplines) &&
    decide (c2.discipline ∈ disciplines) &&
    decide (c1.discipline ≠ c2.discipline)
  | _, _ => false

/-- Body of the pair loop of `CostumeChangeTimeRule.check`
(rules.py:261-298): for an eligible pair, classify the gap in reverse
mode; `shortage = threshold - gap_minutes` uses the RAW gap while the
severity was decided on the truncated gap. -/
def costumeCheckPair (cfg : RuleConfig) (competitor : Competitor)
    (curr next_perf : Performance) : Option Violation :=
  if eligiblePair cfg.disciplines curr next_perf then
    match getSeverity cfg (next_perf.start_time - curr.end_time) true with
    | none => none
    | some severity =>
      let threshold := thresholdOf cfg.thresholds severity
      let shortage := threshold - (next_perf.start_time - curr.end_time)
      some
        { rule_name := "CostumeChangeTime"
          severity := severity
          weight := calculateWeight cfg severity shortage
          entity_id := competitor.id
          entity_name := competitor.full_name_1
          excess_minutes := shortage }
  else none

/-- Consecutive pairs `(performances[i], performances[i+1])`. -/
def consecutivePairs : List Performance → List (Performance × Performance)
  | p :: q :: rest => (p, q) :: consecutivePairs (q :: rest)
  | _ => []

/-- Per-competitor body of `CostumeChangeTimeRule.check` (rules.py:255-298). -/
def costumeCheckCompetitor (cfg : RuleConfig) (c : Competitor) : List Violation :=
  (consecutivePairs (sortPerfs c.performances)).filterMap fun pq =>
    costumeCheckPair cfg c pq.1 pq.2

/-- `CostumeChangeTimeRule.check` (rules.py:238-300). -/
def costumeChangeTimeCheck (cfg : RuleConfig) (graph : ScheduleGraph) :
    List Violation :=
  if ¬ cfg.enabled then []
  else (graph.competitors.map (costumeCheckCompetitor cfg)).flatten

/-! ## MaxGapBetweenPerformancesRule -/

/-- Body of the pair loop of `MaxGapBetweenPerformancesRule.check`
(rules.py:431-460): classify the raw gap in normal mode,
`excess = gap_minutes - threshold` on the raw gap. -/
def gapCheckPair (cfg : RuleConfig) (competitor : Competitor)
    (curr next_perf : Performance) : Option Violation :=
  match getSeverity cfg (next_perf.start_time - curr.end_time) false with
  | none => none
  | some severity =>
    let threshold := thresholdOf cfg.thresholds severity
    let excess := (next_perf.start_time - curr.end_time) - threshold
    some
      { rule_name := "MaxGapBetweenPerformances"
        severity := severity
        weight := calculateWeight cfg severity excess
        entity_id := competitor.id
        entity_name := competitor.full_name_1
        excess_minutes := excess }

/-- Per-competitor body of `MaxGapBetweenPerformancesRule.check`
(rules.py:422-460): competitors with fewer than 2 performances are
skipped. -/
def gapCheckCompetitor (cfg : RuleConfig) (c : Competitor) : List Violation :=
  if c.performances.length < 2 then []
  else (consecutivePairs (sortPerfs c.performances)).filterMap fun pq =>
    gapCheckPair cfg c pq.1 pq.2

/-- `MaxGapBetweenPerformancesRule.check` (rules.py:406-462). -/
def maxGapBetweenPerformancesCheck (cfg : RuleConfig) (graph : ScheduleGraph) :
    List Violation :=
  if ¬ cfg.enabled then []
  else (graph.competitors.map (gapCheckCompetitor cfg)).flatten

/-! ## InferenceEngine: grouping (inference_engine.py:90-122) -/

/-- One step of `_group_by_severity`'s loop:
`result[violation.severity].append(violation)` on an association list
whose keys were pre-seeded. -/
def addBySeverity (acc : List (Severity × List Violation)) (v : Violation) :
    List (Severity × List Violation) :=
  acc.map fun kv => if kv.1 = v.severity then (kv.1, kv.2 ++ [v]) else kv

/-- `InferenceEngine._group_by_severity` (inference_engine.py:90-104):
`result = {severity: [] for severity in Severity}` seeds one empty bucket
per enum member (in enum declaration order), then each violation is
appended to its severity's bucket. -/
def groupBySeverity (violations : List Violation) :
    List (Severity × List Violation) :=
  violations.foldl addBySeverity (Severity.members.map fun s => (s, []))

/-- One step of `_group_by_rule`'s loop: create the key on first sight
(appended at the end, Python dicts keep insertion order), then append. -/
def addByRule (acc : List (String × List Violation)) (v : Violation) :
    List (String × List Violation) :=
  if acc.any fun kv => kv.1 = v.rule_name then
    acc.map fun kv => if kv.1 = v.rule_name then (kv.1, kv.2 ++ [v]) else kv
  else acc ++ [(v.rule_name, [v])]

/-- `InferenceEngine._group_by_rule` (inference_engine.py:106-122):
`result = {}`, keys created only when a violation with that rule name
arrives. -/
def groupByRule (violations : List Violation) :
    List (String × List Violation) :=
  violations.foldl addByRule []

/-! ## InferenceEngine: rating (inference_engine.py:124-144) -/

/-- The `general.schedule_rating` mapping with each key possibly absent
(each is read with `thresholds.get(key, default)`). -/
structure RatingThresholds where
  excellent : Option ℚ
  good : Option ℚ
  acceptable : Option ℚ
  poor : Option ℚ
deriving DecidableEq, Repr

/-- The `general` section (read with `config.get('general', {})`,
then `general.get('schedule_rating', {})`). -/
structure GeneralConfig where
  schedule_rating : Option RatingThresholds
deriving DecidableEq, Repr

/-- `self.general_config.get('schedule_rating', {})` after
`self.general_config = config.get('general', {})`
(inference_engine.py:53 and 133): a missing `general` section or a
missing `schedule_rating` mapping both yield the empty mapping. -/
def ratingThresholdsOf : Option GeneralConfig → RatingThresholds
  | none => ⟨none, none, none, none⟩
  | some gc => gc.schedule_rating.getD ⟨none, none, none, none⟩

/-- `InferenceEngine._calculate_rating` (inference_engine.py:124-144):
ascending `≤` chain with per-key defaults
`excellent=0, good=100, acceptable=300, poor=600`. -/
def calculateRating (t : RatingThresholds) (total_weight : ℚ) : String :=
  if total_weight ≤ t.excellent.getD 0 then "VYNIKAJÍCÍ"
  else if total_weight ≤ t.good.getD 100 then "DOBRÉ"
  else if total_weight ≤ t.acceptable.getD 300 then "PŘIJATELNÉ"
  else if total_weight ≤ t.poor.getD 600 then "ŠPATNÉ"
  else "KRITICKÉ"

/-- `sum(v.weight for v in all_violations)`. -/
def sumWeights (violations : List Violation) : ℚ :=
  violations.foldl (fun acc v => acc + v.weight) 0

/-- `ScheduleAnalysisResult` (inference_engine.py:9-31);
the two dictionaries are association lists in insertion order. -/
structure ScheduleAnalysisResult where
  total_weight : ℚ
  rating : String
  violations : List Violation
  violations_by_severity : List (Severity × List Violation)
  violations_by_rule : List (String × List Violation)
deriving DecidableEq, Repr

/-! ## Partial configurations and lazy `KeyError`s

The YAML is parsed into plain dictionaries and the rules index into them
(`config['thresholds']`, `config['weights']`, ...) only at the moment a
value is needed; a missing key raises `KeyError` at that moment.  The
`Except String` layer below carries the name of the missing key as the
error.  Key absence is modelled at the granularity of the entries the
rules read from a rule section (`thresholds`, `weights`, `disciplines`,
`min_gap_minutes`); `enabled` is read with `config.get('enabled', True)`
and can therefore never raise. -/

/-- A rule section as parsed from YAML: every entry possibly absent. -/
structure PartialRuleConfig where
  enabled : Option Bool
  thresholds : Option Thresholds
  weights : Option Weights
  disciplines : Option (List String)
  min_gap_minutes : Option ℚ
deriving DecidableEq, Repr

/-- The whole rules-configuration file: the four rule sections and the
`general` section, each possibly absent. -/
structure RulesFileConfig where
  general : Option GeneralConfig
  max_continuous_dancing : Option PartialRuleConfig
  costume_change_time : Option PartialRuleConfig
  max_continuous_judging : Option PartialRuleConfig
  max_gap_between_performances : Option PartialRuleConfig
deriving DecidableEq, Repr

/-- The four rule objects built by `load_rules_from_config`; each holds
its (still unvalidated) section. -/
structure LoadedRules where
  max_continuous_dancing : PartialRuleConfig
  costume_change_time : PartialRuleConfig
  max_continuous_judging : PartialRuleConfig
  max_gap_between_performances : PartialRuleConfig
deriving DecidableEq, Repr

/-- `load_rules_from_config` (rules.py:465-484): builds the four rule
objects, indexing `config[...]` with the four section names in list
order; a missing section is a `KeyError` at load time.  Nothing else of
a section is inspected at load time (`Rule.__init__` only stores the
dict and reads `enabled` via `.get`). -/
def load_rules_from_config (cfg : RulesFileConfig) : Except String LoadedRules :=
  match cfg.max_continuous_dancing with
  | none => .error "max_continuous_dancing"
  | some d =>
    match cfg.costume_change_time with
    | none => .error "costume_change_time"
    | some c =>
      match cfg.max_continuous_judging with
      | none => .error "max_continuous_judging"
      | some j =>
        match cfg.max_gap_between_performances with
        | none => .error "max_gap_between_performances"
        | some g => .ok ⟨d, c, j, g⟩

/-- `self.config['thresholds']`. -/
def thresholdsE (cfg : PartialRuleConfig) : Except String Thresholds :=
  match cfg.thresholds with
  | none => .error "thresholds"
  | some t => .ok t

/-- `Rule._get_severity` on a parsed section: raises iff `thresholds` is
absent. -/
def getSeverityE (cfg : PartialRuleConfig) (value : ℚ) (reverse : Bool) :
    Except String (Option Severity) :=
  match cfg.thresholds with
  | none => .error "thresholds"
  | some t => .ok (getSeverityT t value reverse)

/-- `Rule._calculate_weight` on a parsed section: raises iff `weights` is
absent (`coefficient_per_minute` is read with `.get(..., 0)` and cannot
raise). -/
def calculateWeightE (cfg : PartialRuleConfig) (severity : Severity) (excess : ℚ) :
    Except String ℚ :=
  match cfg.weights with
  | none => .error "weights"
  | some w => .ok (baseWeight w severity + excess * w.coefficient_per_minute)

/-- `self.config['disciplines']` (costume-change rule only). -/
def disciplinesE (cfg : PartialRuleConfig) : Except String (List String) :=
  match cfg.disciplines with
  | none => .error "disciplines"
  | some ds => .ok ds

/-- `self.config['min_gap_minutes']` (read when a costume-change violation
is materialised, for `details['required_minutes']`). -/
def minGapE (cfg : PartialRuleConfig) : Except String ℚ :=
  match cfg.min_gap_minutes with
  | none => .error "min_gap_minutes"
  | some m => .ok m

/-- Sequence an option-producing action over a list, keeping the `some`
results in order (the per-item loops of the rules, each iteration able to
raise). -/
def collectE {α : Type} (f : α → Except String (Option Violation)) :
    List α → Except String (List Violation)
  | [] => .ok []
  | a :: as => do
    let v? ← f a
    let rest ← collectE f as
    pure (v?.toList ++ rest)

/-- Sequence a list-producing action over a list, concatenating results in
order (the per-entity loops of the rules). -/
def concatMapE {α : Type} (f : α → Except String (List Violation)) :
    List α → Except String (List Violation)
  | [] => .ok []
  | a :: as => do
    let vs ← f a
    let rest ← concatMapE f as
    pure (vs ++ rest)

/-- `_check_duration` on a parsed section. -/
def checkDurationE (cfg : PartialRuleConfig) (c : Competitor) (duration : ℚ) :
    Except String (Option Violation) := do
  let sev? ← getSeverityE cfg duration false
  match sev? with
  | none => pure none
  | some severity => do
    let t ← thresholdsE cfg
    let d : ℚ := (truncQ duration : ℤ)
    let excess := d - thresholdOf t severity
    let weight ← calculateWeightE cfg severity excess
    pure (some
      { rule_name := "MaxContinuousDancing", severity := severity
        weight := weight, entity_id := c.id, entity_name := c.full_name_1
        excess_minutes := excess })

/-- `MaxContinuousDancingRule.check` on a parsed section. -/
def maxContinuousDancingCheckE (cfg : PartialRuleConfig) (graph : ScheduleGraph) :
    Except String (List Violation) :=
  if ¬ (cfg.enabled.getD true) then .ok []
  else
    concatMapE
      (fun c =>
        if (sortPerfs c.performances).length < 2 then .ok []
        else collectE (fun b => checkDurationE cfg c b.1)
          (blocksOf (sortPerfs c.performances)))
      graph.competitors

/-- `_check_judging_duration` on a parsed section. -/
def checkJudgingDurationE (cfg : PartialRuleConfig) (j : Jury) (duration : ℚ) :
    Except String (Option Violation) := do
  let sev? ← getSeverityE cfg duration false
  match sev? with
  | none => pure none
  | some severity => do
    let t ← thresholdsE cfg
    let excess := duration - thresholdOf t severity
    let weight ← calculateWeightE cfg severity excess
    pure (some
      { rule_name := "MaxContinuousJudging", severity := severity
        weight := weight, entity_id := j.id, entity_name := j.name
        excess_minutes := excess })

/-- `MaxContinuousJudgingRule.check` on a parsed section. -/
def maxContinuousJudgingCheckE (cfg : PartialRuleConfig) (graph : ScheduleGraph) :
    Except String (List Violation) :=
  if ¬ (cfg.enabled.getD true) then .ok []
  else
    concatMapE
      (fun j =>
        if j.performances.isEmpty then .ok []
        else collectE (fun b => checkJudgingDurationE cfg j b.1)
          (blocksOf (sortPerfs j.performances)))
      graph.juries

/-- Pair body of `CostumeChangeTimeRule.check` on a parsed section; the
`min_gap_minutes` read happens while the violation's `details` dictionary
is materialised. -/
def costumeCheckPairE (cfg : PartialRuleConfig) (disciplines : List String)
    (c : Competitor) (curr next_perf : Performance) :
    Except String (Option Violation) :=
  if eligiblePair disciplines curr next_perf then do
    let sev? ← getSeverityE cfg (next_perf.start_time - curr.end_time) true
    match sev? with
    | none => pure none
    | some severity => do
      let t ← thresholdsE cfg
      let shortage := thresholdOf t severity -
        (next_perf.start_time - curr.end_time)
      let weight ← calculateWeightE cfg severity shortage
      let _ ← minGapE cfg
      pure (some
        { rule_name := "CostumeChangeTime", severity := severity
          weight := weight, entity_id := c.id, entity_name := c.full_name_1
          excess_minutes := shortage })
  else pure none

/-- `CostumeChangeTimeRule.check` on a parsed section: `disciplines` is
read once before the competitor loop (rules.py:253). -/
def costumeChangeTimeCheckE (cfg : PartialRuleConfig) (graph : ScheduleGraph) :
    Except String (List Violation) :=
  if ¬ (cfg.enabled.getD true) then .ok []
  else do
    let ds ← disciplinesE cfg
    concatMapE
      (fun c => collectE (fun pq => costumeCheckPairE cfg ds c pq.1 pq.2)
        (consecutivePairs (sortPerfs c.performances)))
      graph.competitors

/-- Pair body of `MaxGapBetweenPerformancesRule.check` on a parsed
section. -/
def gapCheckPairE (cfg : PartialRuleConfig) (c : Competitor)
    (curr next_perf : Performance) : Except String (Option Violation) := do
  let sev? ← getSeverityE cfg (next_perf.start_time - curr.end_time) false
  match sev? with
  | none => pure none
  | some severity => do
    let t ← thresholdsE cfg
    let excess := (next_perf.start_time - curr.end_time) -
      thresholdOf t severity
    let weight ← calculateWeightE cfg severity excess
    pure (some
      { rule_name := "MaxGapBetweenPerformances", severity := severity
        weight := weight, entity_id := c.id, entity_name := c.full_name_1
        excess_minutes := excess })

/-- `MaxGapBetweenPerformancesRule.check` on a parsed section. -/
def maxGapBetweenPerformancesCheckE (cfg : PartialRuleConfig)
    (graph : ScheduleGraph) : Except String (List Violation) :=
  if ¬ (cfg.enabled.getD true) then .ok []
  else
    concatMapE
      (fun c =>
        if c.performances.length < 2 then .ok []
        else collectE (fun pq => gapCheckPairE cfg c pq.1 pq.2)
          (consecutivePairs (sortPerfs c.performances)))
      graph.competitors

/-- `InferenceEngine.analyze_schedule` (inference_engine.py:56-88): runs
the four loaded rules in list order, an uncaught exception from any
`check` aborting the whole call; concatenates, groups, sums, rates. -/
def analyze_schedule (rules : LoadedRules) (general : Option GeneralConfig)
    (graph : ScheduleGraph) : Except String ScheduleAnalysisResult := do
  let v1 ← maxContinuousDancingCheckE rules.max_continuous_dancing graph
  let v2 ← costumeChangeTimeCheckE rules.costume_change_time graph
  let v3 ← maxContinuousJudgingCheckE rules.max_continuous_judging graph
  let v4 ← maxGapBetweenPerformancesCheckE rules.max_gap_between_performances graph
  let all := v1 ++ v2 ++ v3 ++ v4
  let total_weight := sumWeights all
  pure
    { total_weight := total_weight
      rating := calculateRating (ratingThresholdsOf general) total_weight
      violations := all
      violations_by_severity := groupBySeverity all
      violations_by_rule := groupByRule all }

/-! ## Spec-side reverse classifier (for the refinement comparison)

The specification (§4.1) words reverse-mode classification as a `≤` chain
on the measured value itself, reserving truncation for normal mode.  The
following definition follows those words; it is compared against the
source-derived `getSeverityT`. -/

/-- The reverse-mode classifier as the SPEC words it: `CRITICAL` if
`value ≤ critical`, else `MEDIUM` if `value ≤ medium`, else `LOW` if
`value ≤ low`, else none — on the value itself, no truncation. -/
def specReverseClassify (t : Thresholds) (value : ℚ) : Option Severity :=
  if value ≤ t.critical then some .critical
  else if value ≤ t.medium then some .medium
  else if value ≤ t.low then some .low
  else none

/-! ## Inputs and predicates used by the claim theorems and witnesses -/

/-- Severity order used to express monotonicity of the classifier:
`none < LOW < MEDIUM < CRITICAL`. -/
def sevRank : Option Severity → ℕ
  | none => 0
  | some .low => 1
  | some .medium => 2
  | some .critical => 3

/-- Three fixed performances for the boundary witnesses: `perfA` ends at
minute 20; `perfB` starts at minute 30 (gap exactly 10); `perfC` starts
at minute 25 (gap 5). -/
def perfA : Performance := ⟨0, 20, 20, none⟩

def perfB : Performance := ⟨30, 40, 10, none⟩

def perfC : Performance := ⟨25, 40, 15, none⟩

/-! Concrete inputs for the weight-bound witness. -/

/-- Normal-mode section (thresholds 90/60/40, bases 50/25/10, coefficient
2). -/
def cfgNormalW : RuleConfig := ⟨true, ⟨90, 60, 40⟩, ⟨50, 25, 10, 2⟩, [], 15⟩

/-- Reverse-mode costume section (thresholds 5/10/15). -/
def cfgReverseW : RuleConfig :=
  ⟨true, ⟨5, 10, 15⟩, ⟨50, 25, 10, 2⟩, ["Latin", "Standard"], 15⟩

/-- The dancing violation for a 100-minute block under `cfgNormalW`. -/
def vDW : Violation := ⟨"MaxContinuousDancing", .critical, 70, "c1", "N", 10⟩

/-- The judging violation for a 100-minute block under `cfgNormalW`. -/
def vJW : Violation := ⟨"MaxContinuousJudging", .critical, 70, "j1", "J", 10⟩

/-- The gap violation for a 100-minute gap under `cfgNormalW`. -/
def vGW : Violation :=
  ⟨"MaxGapBetweenPerformances", .critical, 70, "c1", "N", 10⟩

/-- The costume violation for a 4-minute gap under `cfgReverseW`. -/
def vCW : Violation := ⟨"CostumeChangeTime", .critical, 52, "c1", "N", 1⟩

/-- An `Except` value that is an `ok`. -/
def isOkE {α : Type} : Except String α → Prop
  | .ok _ => True
  | .error _ => False

/-- Every key the four rules read, present in the four loaded sections. -/
def completeRules (r : LoadedRules) : Prop :=
  r.max_continuous_dancing.thresholds.isSome = true ∧
  r.max_continuous_dancing.weights.isSome = true ∧
  r.costume_change_time.thresholds.isSome = true ∧
  r.costume_change_time.weights.isSome = true ∧
  r.costume_change_time.disciplines.isSome = true ∧
  r.costume_change_time.min_gap_minutes.isSome = true ∧
  r.max_continuous_judging.thresholds.isSome = true ∧
  r.max_continuous_judging.weights.isSome = true ∧
  r.max_gap_between_performances.thresholds.isSome = true ∧
  r.max_gap_between_performances.weights.isSome = true

/-- The configuration file of the lazy-failure counterexample: all four
rule sections present, but the judging section has no `weights` key. -/
def cfgMissingWeights : RulesFileConfig :=
  ⟨some ⟨some ⟨some 0, some 100, some 300, some 600⟩⟩,
   some ⟨some true, some ⟨90, 60, 40⟩, some ⟨50, 25, 10, 2⟩, none, none⟩,
   some ⟨some true, some ⟨5, 10, 15⟩, some ⟨50, 25, 10, 2⟩,
     some ["Latin", "Standard"], some 15⟩,
   some ⟨some true, some ⟨90, 60, 40⟩, none, none, none⟩,
   some ⟨some true, some ⟨240, 300, 360⟩, some ⟨50, 25, 10, 2⟩, none, none⟩⟩

/-- The four rule objects `load_rules_from_config` builds from
`cfgMissingWeights`. -/
def loadedMissingWeights : LoadedRules :=
  ⟨⟨some true, some ⟨90, 60, 40⟩, some ⟨50, 25, 10, 2⟩, none, none⟩,
   ⟨some true, some ⟨5, 10, 15⟩, some ⟨50, 25, 10, 2⟩,
     some ["Latin", "Standard"], some 15⟩,
   ⟨some true, some ⟨90, 60, 40⟩, none, none, none⟩,
   ⟨some true, some ⟨240, 300, 360⟩, some ⟨50, 25, 10, 2⟩, none, none⟩⟩

/-- The graph of the lazy-failure counterexample: no competitors, one jury
with a single 100-minute performance (which the judging rule classifies
CRITICAL, forcing the `weights` lookup). -/
def graphMissingWeights : ScheduleGraph :=
  ⟨[], [⟨"j1", "J", [⟨0, 100, 100, none⟩]⟩]⟩

/-- A fully-populated set of four loaded rule sections for the C10
witness. -/
def fullRulesW : LoadedRules :=
  ⟨⟨some true, some ⟨90, 60, 40⟩, some ⟨50, 25, 10, 2⟩, none, none⟩,
   ⟨some true, some ⟨5, 10, 15⟩, some ⟨50, 25, 10, 2⟩,
     some ["Latin", "Standard"], some 15⟩,
   ⟨some true, some ⟨240, 300, 360⟩, some ⟨50, 25, 10, 2⟩, none, none⟩,
   ⟨some true, some ⟨60, 90, 120⟩, some ⟨50, 25, 10, 2⟩, none, none⟩⟩

/-! ## Helper lemmas about truncation -/

/-- Truncation toward zero is monotone. -/
theorem truncQ_mono {x y : ℚ} (h : x ≤ y) : truncQ x ≤ truncQ y := by
  unfold truncQ
  rcases lt_or_le x 0 with hx | hx
  · rw [if_pos hx]
    rcases lt_or_le y 0 with hy | hy
    · rw [if_pos hy]
      exact Int.ceil_mono h
    · rw [if_neg (not_lt.mpr hy)]
      have h1 : ⌈x⌉ ≤ 0 := by
        have hx0 : x ≤ ((0 : ℤ) : ℚ) := by exact_mod_cast le_of_lt hx
        exact Int.ceil_le.mpr hx0
      have h2 : (0 : ℤ) ≤ ⌊y⌋ := Int.floor_nonneg.mpr hy
      omega
  · rw [if_neg (not_lt.mpr hx), if_neg (not_lt.mpr (le_trans hx h))]
    exact Int.floor_mono h

/-- For non-negative arguments truncation is the floor, hence below the
argument. -/
theorem truncQ_le {q : ℚ} (h : 0 ≤ q) : (truncQ q : ℚ) ≤ q := by
  unfold truncQ
  rw [if_neg (not_lt.mpr h)]
  exact Int.floor_le q

/-- Every rational is strictly below its truncation plus one. -/
theorem lt_truncQ_add_one (q : ℚ) : q < (truncQ q : ℚ) + 1 := by
  unfold truncQ
  split_ifs with hq
  · have := Int.le_ceil q
    linarith
  · exact Int.lt_floor_add_one q

/-- Negative rationals lie below their truncation (which is the ceiling). -/
theorem le_truncQ_of_neg {q : ℚ} (h : q < 0) : q ≤ (truncQ q : ℚ) := by
  unfold truncQ
  rw [if_pos h]
  exact Int.le_ceil q

/-- Unfolding of `getSeverityT` in normal mode. -/
theorem getSeverityT_false (t : Thresholds) (value : ℚ) :
    getSeverityT t value false =
      (if ((truncQ value : ℤ) : ℚ) ≥ t.critical then some .critical
       else if ((truncQ value : ℤ) : ℚ) ≥ t.medium then some .medium
       else if ((truncQ value : ℤ) : ℚ) ≥ t.low then some .low
       else none) := by
  simp [getSeverityT]

/-- Unfolding of `getSeverityT` in reverse mode. -/
theorem getSeverityT_true (t : Thresholds) (value : ℚ) :
    getSeverityT t value true =
      (if ((truncQ value : ℤ) : ℚ) ≤ t.critical then some .critical
       else if ((truncQ value : ℤ) : ℚ) ≤ t.medium then some .medium
       else if ((truncQ value : ℤ) : ℚ) ≤ t.low then some .low
       else none) := by
  simp [getSeverityT]

end ScheduleApp

namespace ScheduleApp

/-! ## Claims -/

/-- C2: the claim says reverse-mode classification compares the raw value
with `≤` against the thresholds, with no truncation.  It is false: with
reverse thresholds `{critical := 5, medium := 10, low := 15}` and value
`5.5`, `_get_severity` first truncates (`int(5.5) = 5`) and returns
CRITICAL, while the claimed untruncated chain gives `5.5 ≤ 5` false then
`5.5 ≤ 10`, i.e. MEDIUM. -/
theorem reverse_truncates_counterexample :
    getSeverityT ⟨5, 10, 15⟩ (11 / 2) true = some Severity.critical ∧
    specReverseClassify ⟨5, 10, 15⟩ (11 / 2) = some Severity.medium ∧
    ¬ ((11 : ℚ) / 2 ≤ 5) := by
  refine ⟨?_, ?_, by norm_num⟩
  · norm_num [getSeverityT, truncQ]
  · norm_num [specReverseClassify]

/-- C2 (amended): in reverse mode, exactly as in normal mode, the value is
first truncated toward zero to an integer; the `≤` chain of the claim is
then applied to the truncated value.  Formally, the source classifier in
reverse mode coincides with the spec-worded `≤` chain applied to
`int(value)` instead of `value`. -/
theorem reverse_classify_eq_spec_on_truncated (t : Thresholds) (value : ℚ) :
    getSeverityT t value true = specReverseClassify t ((truncQ value : ℤ) : ℚ) := by
  rw [getSeverityT_true]
  simp [specReverseClassify]

/-- C8: classification is monotonic for any fixed thresholds: in normal
mode a larger value never gets a less severe class, in reverse mode a
smaller value never gets a less severe class (order
none < LOW < MEDIUM < CRITICAL). -/
theorem classification_monotone (t : Thresholds) {v1 v2 : ℚ} (h : v1 ≤ v2) :
    sevRank (getSeverityT t v1 false) ≤ sevRank (getSeverityT t v2 false) ∧
    sevRank (getSeverityT t v2 true) ≤ sevRank (getSeverityT t v1 true) := by
  have hq : ((truncQ v1 : ℤ) : ℚ) ≤ ((truncQ v2 : ℤ) : ℚ) := by
    exact_mod_cast truncQ_mono h
  constructor
  · rw [getSeverityT_false, getSeverityT_false]
    split_ifs <;> simp only [sevRank] <;> first | (exfalso; linarith) | norm_num
  · rw [getSeverityT_true, getSeverityT_true]
    split_ifs <;> simp only [sevRank] <;> first | (exfalso; linarith) | norm_num

/-- C8 witness: concrete instantiation (normal thresholds 90/60/40,
values 45 ≤ 70). -/
theorem classification_monotone_witness :
    sevRank (getSeverityT ⟨90, 60, 40⟩ 45 false) ≤
      sevRank (getSeverityT ⟨90, 60, 40⟩ 70 false) ∧
    sevRank (getSeverityT ⟨90, 60, 40⟩ 70 true) ≤
      sevRank (getSeverityT ⟨90, 60, 40⟩ 45 true) :=
  classification_monotone ⟨90, 60, 40⟩ (by norm_num)

/-- C6: with ascending rating thresholds the `≤` chain is tried in
ascending order and the first match wins: a total weight exactly equal to
the `good` threshold rates `DOBRÉ`; weight `0` with `excellent = 0` rates
`VYNIKAJÍCÍ` whatever the other thresholds are; weight `150` with
`{excellent := 0, good := 100, acceptable := 300}` rates `PŘIJATELNÉ`
whatever `poor` is. -/
theorem rating_ascending_first_match (e g a p : ℚ)
    (heg : e < g) (hga : g < a) (hap : a < p) :
    calculateRating ⟨some e, some g, some a, some p⟩ g = "DOBRÉ" ∧
    (∀ gq aq pq : Option ℚ,
      calculateRating ⟨some 0, gq, aq, pq⟩ 0 = "VYNIKAJÍCÍ") ∧
    (∀ pq : Option ℚ,
      calculateRating ⟨some 0, some 100, some 300, pq⟩ 150 = "PŘIJATELNÉ") := by
  refine ⟨?_, ?_, ?_⟩
  · have h1 : ¬ g ≤ e := not_le.mpr heg
    simp [calculateRating, h1]
  · intro gq aq pq
    simp [calculateRating]
  · intro pq
    norm_num [calculateRating]

/-- C6 witness: the default thresholds 0 < 100 < 300 < 600 instantiate the
ascending hypotheses. -/
theorem rating_ascending_first_match_witness :
    calculateRating ⟨some 0, some 100, some 300, some 600⟩ 100 = "DOBRÉ" ∧
    (∀ gq aq pq : Option ℚ,
      calculateRating ⟨some 0, gq, aq, pq⟩ 0 = "VYNIKAJÍCÍ") ∧
    (∀ pq : Option ℚ,
      calculateRating ⟨some 0, some 100, some 300, pq⟩ 150 = "PŘIJATELNÉ") :=
  rating_ascending_first_match 0 100 300 600 (by norm_num) (by norm_num)
    (by norm_num)

/-! ## Grouping lemmas -/

/-- Updating the value at a key leaves the key list of an association list
unchanged. -/
theorem map_fst_update {α β : Type} [DecidableEq α]
    (acc : List (α × β)) (k : α) (f : β → β) :
    (acc.map fun kv => if kv.1 = k then (kv.1, f kv.2) else kv).map Prod.fst =
      acc.map Prod.fst := by
  rw [List.map_map]
  apply List.map_congr_left
  intro kv _
  by_cases hkv : kv.1 = k <;> simp [hkv]

/-- `addBySeverity` never changes the bucket keys. -/
theorem addBySeverity_keys (acc : List (Severity × List Violation))
    (v : Violation) :
    (addBySeverity acc v).map Prod.fst = acc.map Prod.fst :=
  map_fst_update acc v.severity (· ++ [v])

/-- The severity grouping loop never changes the bucket keys. -/
theorem foldl_addBySeverity_keys (vs : List Violation)
    (acc : List (Severity × List Violation)) :
    ((vs.foldl addBySeverity acc).map Prod.fst) = acc.map Prod.fst := by
  induction vs generalizing acc with
  | nil => rfl
  | cons v vs ih =>
    simp only [List.foldl_cons]
    rw [ih, addBySeverity_keys]

/-- Key membership after one `addByRule` step. -/
theorem addByRule_keys_mem (acc : List (String × List Violation))
    (v : Violation) (r : String) :
    r ∈ (addByRule acc v).map Prod.fst ↔
      r ∈ acc.map Prod.fst ∨ r = v.rule_name := by
  unfold addByRule
  split_ifs with hany
  · rw [map_fst_update acc v.rule_name (· ++ [v])]
    constructor
    · exact Or.inl
    · rintro (h | hr)
      · exact h
      · rcases List.any_eq_true.mp hany with ⟨kv, hmem, hkv⟩
        have hkr : kv.1 = r := (of_decide_eq_true hkv).trans hr.symm
        exact hkr ▸ List.mem_map_of_mem Prod.fst hmem
  · simp [List.mem_append]

/-- Key membership across the whole rule-grouping loop. -/
theorem foldl_addByRule_mem (vs : List Violation)
    (acc : List (String × List Violation)) (r : String) :
    r ∈ ((vs.foldl addByRule acc).map Prod.fst) ↔
      r ∈ acc.map Prod.fst ∨ ∃ v ∈ vs, v.rule_name = r := by
  induction vs generalizing acc with
  | nil => simp
  | cons v vs ih =>
    simp only [List.foldl_cons]
    rw [ih, addByRule_keys_mem]
    constructor
    · rintro ((h | rfl) | ⟨v', hv', hr⟩)
      · exact Or.inl h
      · exact Or.inr ⟨v, List.mem_cons_self v vs, rfl⟩
      · exact Or.inr ⟨v', List.mem_cons_of_mem v hv', hr⟩
    · rintro (h | ⟨v', hv', hr⟩)
      · exact Or.inl (Or.inl h)
      · rcases List.mem_cons.mp hv' with rfl | hv'
        · exact Or.inl (Or.inr hr.symm)
        · exact Or.inr ⟨v', hv', hr⟩

/-- C4: the claim says the severity grouping has FOUR buckets, one per
enum value.  The `Severity` enum has only three members
(CRITICAL, MEDIUM, LOW), so `_group_by_severity` produces three buckets:
already on the empty violation list the grouping has exactly 3 keys,
not 4. -/
theorem severity_buckets_counterexample :
    (groupBySeverity []).map Prod.fst =
      [Severity.critical, Severity.medium, Severity.low] ∧
    (groupBySeverity []).length = 3 ∧ (3 : ℕ) ≠ 4 := by
  refine ⟨rfl, rfl, by norm_num⟩

/-- C4 (amended): for every analysis run the violations-by-severity
grouping contains THREE buckets, one per severity enum value (the enum
has exactly the three members CRITICAL, MEDIUM, LOW), each key present
even when its list is empty, while the violations-by-rule map contains a
key exactly for the rule names that produced at least one violation. -/
theorem grouping_buckets (vs : List Violation) :
    (groupBySeverity vs).map Prod.fst = Severity.members ∧
    Severity.members = [Severity.critical, Severity.medium, Severity.low] ∧
    (∀ r : String,
      r ∈ (groupByRule vs).map Prod.fst ↔ ∃ v ∈ vs, v.rule_name = r) := by
  refine ⟨?_, rfl, ?_⟩
  · unfold groupBySeverity
    rw [foldl_addBySeverity_keys, List.map_map]
    have hid : (Prod.fst ∘ fun s : Severity => (s, ([] : List Violation))) = id := rfl
    rw [hid, List.map_id]
  · intro r
    unfold groupByRule
    rw [foldl_addByRule_mem]
    simp

/-- C7: in the block walk shared verbatim by the two continuous-block
rules (`MaxContinuousDancing` and `MaxContinuousJudging` both run
`blocksAux`), a gap of exactly 10.0 minutes between the previous
performance's end and the current one's start is NOT continuous: the
running block is closed (emitted with its current duration, start and
end) and a fresh block starts at `curr`; only a gap strictly below 10
folds `curr`'s duration into the running block. -/
theorem block_boundary_ten (rest : List Performance) (dur : ℚ)
    (bstart last curr : Performance) :
    (gapQ last curr = 10 →
      blocksAux (curr :: rest) dur bstart last =
        (dur, bstart, last) :: blocksAux rest curr.duration curr curr) ∧
    (gapQ last curr < 10 →
      blocksAux (curr :: rest) dur bstart last =
        blocksAux rest (dur + curr.duration) bstart curr) := by
  constructor
  · intro h
    rw [blocksAux, if_neg]
    rw [h]
    exact lt_irrefl 10
  · intro h
    rw [blocksAux, if_pos h]

/-- C7 witness: with the exact 10-minute gap the block `(20, perfA, perfA)`
is closed; with the 5-minute gap the durations merge. -/
theorem block_boundary_ten_witness :
    (blocksAux [perfB] 20 perfA perfA =
      ((20 : ℚ), perfA, perfA) :: blocksAux [] perfB.duration perfB perfB) ∧
    (blocksAux [perfC] 20 perfA perfA =
      blocksAux [] (20 + perfC.duration) perfA perfC) :=
  ⟨(block_boundary_ten [] 20 perfA perfA perfB).1
      (by norm_num [gapQ, perfA, perfB]),
    (block_boundary_ten [] 20 perfA perfA perfC).2
      (by norm_num [gapQ, perfA, perfC])⟩

/-- C9: the costume-change rule emits a violation for a consecutive pair
only when both performances carry a competition, both disciplines are in
the configured set and the two disciplines differ; any pair failing one
of these conditions yields no violation regardless of the gap.  The
third conjunct spells out what eligibility means. -/
theorem costume_eligibility (cfg : RuleConfig) (c : Competitor)
    (curr next_perf : Performance) :
    (eligiblePair cfg.disciplines curr next_perf = false →
      costumeCheckPair cfg c curr next_perf = none) ∧
    (∀ v, costumeCheckPair cfg c curr next_perf = some v →
      eligiblePair cfg.disciplines curr next_perf = true) ∧
    (eligiblePair cfg.disciplines curr next_perf = true ↔
      ∃ c1 c2, curr.competition = some c1 ∧ next_perf.competition = some c2 ∧
        c1.discipline ∈ cfg.disciplines ∧ c2.discipline ∈ cfg.disciplines ∧
        c1.discipline ≠ c2.discipline) := by
  refine ⟨?_, ?_, ?_⟩
  · intro h
    unfold costumeCheckPair
    rw [h]
    rfl
  · intro v h
    by_contra hne
    have hfalse : eligiblePair cfg.disciplines curr next_perf = false :=
      Bool.not_eq_true _ ▸ (Bool.eq_false_iff.mpr hne)
    unfold costumeCheckPair at h
    rw [hfalse] at h
    simp at h
  · unfold eligiblePair
    cases hc1 : curr.competition with
    | none => simp
    | some c1 =>
      cases hc2 : next_perf.competition with
      | none => simp
      | some c2 => simp [and_assoc]

/-- C9 witness: a pair in the same discipline (Latin → Latin) with a tiny
1-minute gap yields no violation; an eligible Latin → Standard pair with
a 4-minute gap does yield one, and is indeed eligible. -/
theorem costume_eligibility_witness :
    costumeCheckPair ⟨true, ⟨5, 10, 15⟩, ⟨50, 25, 10, 2⟩, ["Latin", "Standard"], 15⟩
      ⟨"c1", "N", []⟩ ⟨0, 60, 60, some ⟨"Latin", "L1"⟩⟩
      ⟨61, 90, 29, some ⟨"Latin", "L2"⟩⟩ = none ∧
    eligiblePair ["Latin", "Standard"] ⟨0, 60, 60, some ⟨"Latin", "L1"⟩⟩
      ⟨64, 90, 26, some ⟨"Standard", "S1"⟩⟩ = true :=
  ⟨(costume_eligibility _ _ _ _).1 (by simp [eligiblePair]),
    (costume_eligibility ⟨true, ⟨5, 10, 15⟩, ⟨50, 25, 10, 2⟩,
        ["Latin", "Standard"], 15⟩ ⟨"c1", "N", []⟩ _ _).2.1
      ⟨"CostumeChangeTime", .critical, 50 + 1 * 2, "c1", "N", 5 - 4⟩
      (by
        norm_num [costumeCheckPair, eligiblePair, getSeverity, getSeverityT,
          truncQ, thresholdOf, calculateWeight, baseWeight]
        intro h
        exact absurd h (by decide))⟩

/-! ## Length preservation of the sort (for the skip conditions) -/

/-- Insertion adds exactly one element. -/
theorem insertByStart_length (p : Performance) (l : List Performance) :
    (insertByStart p l).length = l.length + 1 := by
  induction l with
  | nil => rfl
  | cons q qs ih =>
    unfold insertByStart
    split_ifs <;> simp [ih]

/-- Sorting preserves the number of performances. -/
theorem sortPerfs_length (ps : List Performance) :
    (sortPerfs ps).length = ps.length := by
  unfold sortPerfs
  suffices h : ∀ acc : List Performance,
      (ps.foldl (fun acc p => insertByStart p acc) acc).length =
        acc.length + ps.length by
    simpa using h []
  induction ps with
  | nil => intro acc; simp
  | cons p ps ih =>
    intro acc
    simp only [List.foldl_cons]
    rw [ih (insertByStart p acc), insertByStart_length]
    simp [List.length_cons]
    omega

/-- C3: the claim states BOTH continuous-block rules skip entities with
fewer than 2 performances.  That is true of the dancing rule but false of
the judging rule, which only skips juries with an empty performance list:
a jury with a single 100-minute performance (thresholds 90/60/40) is
reported as a CRITICAL violation. -/
theorem judging_single_performance_counterexample :
    maxContinuousJudgingCheck ⟨true, ⟨90, 60, 40⟩, ⟨50, 25, 10, 2⟩, [], 15⟩
        ⟨[], [⟨"j1", "Judge", [⟨0, 100, 100, none⟩]⟩]⟩ =
      [⟨"MaxContinuousJudging", .critical, 70, "j1", "Judge", 10⟩] ∧
    ([(⟨0, 100, 100, none⟩ : Performance)]).length < 2 := by
  constructor
  · norm_num [maxContinuousJudgingCheck, judgingCheckJury, sortPerfs,
      insertByStart, blocksOf, blocksAux, checkJudgingDuration, getSeverity,
      getSeverityT, truncQ, thresholdOf, calculateWeight, baseWeight,
      List.filterMap_cons]
  · norm_num

/-- C3 (amended): the dancing rule skips every competitor with fewer than
2 performances; the judging rule skips only juries with an empty
performance list (a jury with exactly one performance IS still checked,
and its single duration alone can violate). -/
theorem few_performances_skip (cfg : RuleConfig) :
    (∀ c : Competitor, c.performances.length < 2 →
      dancingCheckCompetitor cfg c = []) ∧
    (∀ j : Jury, j.performances = [] → judgingCheckJury cfg j = []) := by
  constructor
  · intro c hc
    unfold dancingCheckCompetitor
    rw [if_pos]
    rw [sortPerfs_length]
    exact hc
  · intro j hj
    simp [judgingCheckJury, hj]

/-- C3 witness: a competitor with one performance yields nothing from the
dancing rule; a jury with no performances yields nothing from the judging
rule. -/
theorem few_performances_skip_witness :
    dancingCheckCompetitor ⟨true, ⟨90, 60, 40⟩, ⟨50, 25, 10, 2⟩, [], 15⟩
      ⟨"c1", "N", [⟨0, 100, 100, none⟩]⟩ = [] ∧
    judgingCheckJury ⟨true, ⟨90, 60, 40⟩, ⟨50, 25, 10, 2⟩, [], 15⟩
      ⟨"j1", "Judge", []⟩ = [] :=
  ⟨(few_performances_skip _).1 _ (by norm_num),
    (few_performances_skip _).2 _ rfl⟩

/-! ## Inversion lemmas: what a `some` result of each emitter implies -/

/-- A matched severity in normal mode lies at or above its own tier's
threshold (after truncation). -/
theorem getSeverityT_false_spec {t : Thresholds} {v : ℚ} {sev : Severity}
    (h : getSeverityT t v false = some sev) :
    thresholdOf t sev ≤ ((truncQ v : ℤ) : ℚ) := by
  rw [getSeverityT_false] at h
  split_ifs at h with h1 h2 h3
  · cases h; exact h1
  · cases h; exact h2
  · cases h; exact h3

/-- A matched severity in reverse mode lies at or below its own tier's
threshold (after truncation). -/
theorem getSeverityT_true_spec {t : Thresholds} {v : ℚ} {sev : Severity}
    (h : getSeverityT t v true = some sev) :
    ((truncQ v : ℤ) : ℚ) ≤ thresholdOf t sev := by
  rw [getSeverityT_true] at h
  split_ifs at h with h1 h2 h3
  · cases h; exact h1
  · cases h; exact h2
  · cases h; exact h3

/-- Shape of a dancing-rule violation. -/
theorem checkDuration_some {cfg : RuleConfig} {c : Competitor} {duration : ℚ}
    {v : Violation} (h : checkDuration cfg c duration = some v) :
    ∃ sev, getSeverityT cfg.thresholds duration false = some sev ∧
      v.severity = sev ∧
      v.excess_minutes =
        ((truncQ duration : ℤ) : ℚ) - thresholdOf cfg.thresholds sev ∧
      v.weight = calculateWeight cfg sev v.excess_minutes := by
  unfold checkDuration at h
  cases hs : getSeverity cfg duration false with
  | none => rw [hs] at h; cases h
  | some sev =>
    rw [hs] at h
    cases h
    exact ⟨sev, hs, rfl, rfl, rfl⟩

/-- Shape of a judging-rule violation (note: raw, untruncated duration in
the excess). -/
theorem checkJudgingDuration_some {cfg : RuleConfig} {j : Jury} {duration : ℚ}
    {v : Violation} (h : checkJudgingDuration cfg j duration = some v) :
    ∃ sev, getSeverityT cfg.thresholds duration false = some sev ∧
      v.severity = sev ∧
      v.excess_minutes = duration - thresholdOf cfg.thresholds sev ∧
      v.weight = calculateWeight cfg sev v.excess_minutes := by
  unfold checkJudgingDuration at h
  cases hs : getSeverity cfg duration false with
  | none => rw [hs] at h; cases h
  | some sev =>
    rw [hs] at h
    cases h
    exact ⟨sev, hs, rfl, rfl, rfl⟩

/-- Shape of a gap-rule violation (raw gap in the excess). -/
theorem gapCheckPair_some {cfg : RuleConfig} {c : Competitor}
    {curr next_perf : Performance} {v : Violation}
    (h : gapCheckPair cfg c curr next_perf = some v) :
    ∃ sev,
      getSeverityT cfg.thresholds (next_perf.start_time - curr.end_time) false =
        some sev ∧
      v.severity = sev ∧
      v.excess_minutes =
        (next_perf.start_time - curr.end_time) - thresholdOf cfg.thresholds sev ∧
      v.weight = calculateWeight cfg sev v.excess_minutes := by
  unfold gapCheckPair at h
  cases hs : getSeverity cfg (next_perf.start_time - curr.end_time) false with
  | none => rw [hs] at h; cases h
  | some sev =>
    rw [hs] at h
    cases h
    exact ⟨sev, hs, rfl, rfl, rfl⟩

/-- Shape of a costume-change violation (raw gap subtracted from the
matched threshold). -/
theorem costumeCheckPair_some {cfg : RuleConfig} {c : Competitor}
    {curr next_perf : Performance} {v : Violation}
    (h : costumeCheckPair cfg c curr next_perf = some v) :
    ∃ sev,
      getSeverityT cfg.thresholds (next_perf.start_time - curr.end_time) true =
        some sev ∧
      v.severity = sev ∧
      v.excess_minutes =
        thresholdOf cfg.thresholds sev - (next_perf.start_time - curr.end_time) ∧
      v.weight = calculateWeight cfg sev v.excess_minutes := by
  unfold costumeCheckPair at h
  by_cases he : eligiblePair cfg.disciplines curr next_perf = true
  · rw [if_pos he] at h
    cases hs : getSeverity cfg (next_perf.start_time - curr.end_time) true with
    | none => rw [hs] at h; cases h
    | some sev =>
      rw [hs] at h
      cases h
      exact ⟨sev, hs, rfl, rfl, rfl⟩
  · rw [if_neg he] at h
    cases h

/-- C1: the claim says the excess fed into the weight computation is
non-negative for EVERY rule, in particular `threshold − gap ≥ 0` for every
classified costume-change gap.  False: the costume-change rule classifies
the TRUNCATED gap but subtracts the RAW gap, so a gap of 5.5 minutes with
critical threshold 5 is classified CRITICAL (`int(5.5) = 5 ≤ 5`) with
shortage `5 − 5.5 = −0.5` and, with `base_critical = 50` and coefficient 2,
weight `49 < 50 = base_critical`. -/
theorem costume_negative_shortage_counterexample :
    costumeChangeTimeCheck
        ⟨true, ⟨5, 10, 15⟩, ⟨50, 25, 10, 2⟩, ["Latin", "Standard"], 15⟩
        ⟨[⟨"c1", "N",
            [⟨0, 60, 60, some ⟨"Latin", "L1"⟩⟩,
             ⟨131 / 2, 90, 49 / 2, some ⟨"Standard", "S1"⟩⟩]⟩], []⟩ =
      [⟨"CostumeChangeTime", .critical, 49, "c1", "N", -(1 / 2)⟩] ∧
    -(1 / 2 : ℚ) < 0 ∧ (49 : ℚ) < 50 := by
  refine ⟨?_, by norm_num, by norm_num⟩
  norm_num [costumeChangeTimeCheck, costumeCheckCompetitor, sortPerfs,
    insertByStart, consecutivePairs, costumeCheckPair, eligiblePair,
    getSeverity, getSeverityT, truncQ, thresholdOf, calculateWeight,
    baseWeight, List.filterMap_cons]
  rw [if_neg (by decide : ¬ ("Latin" = "Standard"))]

/-- C1 (amended): for the three normal-mode emitters the excess fed to the
weight computation is bounded below as the claim says — non-negative
outright for the dancing rule (both classification and excess use the
truncated duration), and non-negative for the judging and gap rules
whenever the measured value is non-negative (they subtract the threshold
from the RAW value, which exceeds its truncation for non-negative
values); so with a non-negative coefficient every such violation has
weight ≥ its severity's base weight.  For the costume-change rule the
shortage can be negative, but only by strictly less than one minute
(`threshold − gap > −1`), so its weight is ≥ base weight minus one
coefficient. -/
theorem violation_weight_bounds (cfg : RuleConfig) :
    (∀ c duration v, checkDuration cfg c duration = some v →
      0 ≤ v.excess_minutes ∧
      (0 ≤ cfg.weights.coefficient_per_minute →
        baseWeight cfg.weights v.severity ≤ v.weight)) ∧
    (∀ j duration v, 0 ≤ duration →
      checkJudgingDuration cfg j duration = some v →
      0 ≤ v.excess_minutes ∧
      (0 ≤ cfg.weights.coefficient_per_minute →
        baseWeight cfg.weights v.severity ≤ v.weight)) ∧
    (∀ c curr next_perf v, curr.end_time ≤ next_perf.start_time →
      gapCheckPair cfg c curr next_perf = some v →
      0 ≤ v.excess_minutes ∧
      (0 ≤ cfg.weights.coefficient_per_minute →
        baseWeight cfg.weights v.severity ≤ v.weight)) ∧
    (∀ c curr next_perf v, costumeCheckPair cfg c curr next_perf = some v →
      -1 < v.excess_minutes ∧
      (0 ≤ cfg.weights.coefficient_per_minute →
        baseWeight cfg.weights v.severity -
          cfg.weights.coefficient_per_minute ≤ v.weight)) := by
  refine ⟨?_, ?_, ?_, ?_⟩
  · intro c duration v h
    rcases checkDuration_some h with ⟨sev, hs, hsev, hex, hw⟩
    have hth := getSeverityT_false_spec hs
    have hex0 : 0 ≤ v.excess_minutes := by rw [hex]; linarith
    refine ⟨hex0, fun hco => ?_⟩
    rw [hsev, hw, calculateWeight]
    have := mul_nonneg hex0 hco
    linarith
  · intro j duration v hd h
    rcases checkJudgingDuration_some h with ⟨sev, hs, hsev, hex, hw⟩
    have hth := getSeverityT_false_spec hs
    have htr := truncQ_le hd
    have hex0 : 0 ≤ v.excess_minutes := by rw [hex]; linarith
    refine ⟨hex0, fun hco => ?_⟩
    rw [hsev, hw, calculateWeight]
    have := mul_nonneg hex0 hco
    linarith
  · intro c curr next_perf v hgap h
    rcases gapCheckPair_some h with ⟨sev, hs, hsev, hex, hw⟩
    have hth := getSeverityT_false_spec hs
    have htr := truncQ_le (by linarith : (0 : ℚ) ≤ next_perf.start_time - curr.end_time)
    have hex0 : 0 ≤ v.excess_minutes := by rw [hex]; linarith
    refine ⟨hex0, fun hco => ?_⟩
    rw [hsev, hw, calculateWeight]
    have := mul_nonneg hex0 hco
    linarith
  · intro c curr next_perf v h
    rcases costumeCheckPair_some h with ⟨sev, hs, hsev, hex, hw⟩
    have hth := getSeverityT_true_spec hs
    have htr := lt_truncQ_add_one (next_perf.start_time - curr.end_time)
    have hex1 : -1 < v.excess_minutes := by rw [hex]; linarith
    refine ⟨hex1, fun hco => ?_⟩
    rw [hsev, hw, calculateWeight]
    have hmul : (-1) * cfg.weights.coefficient_per_minute ≤
        v.excess_minutes * cfg.weights.coefficient_per_minute :=
      mul_le_mul_of_nonneg_right (le_of_lt hex1) hco
    linarith

/-- C1 witness: all four bounds instantiated on concrete violating inputs
(100-minute blocks, a 100-minute gap, a 4-minute costume gap). -/
theorem violation_weight_bounds_witness :
    (0 ≤ vDW.excess_minutes ∧
      baseWeight cfgNormalW.weights vDW.severity ≤ vDW.weight) ∧
    (0 ≤ vJW.excess_minutes ∧
      baseWeight cfgNormalW.weights vJW.severity ≤ vJW.weight) ∧
    (0 ≤ vGW.excess_minutes ∧
      baseWeight cfgNormalW.weights vGW.severity ≤ vGW.weight) ∧
    (-1 < vCW.excess_minutes ∧
      baseWeight cfgReverseW.weights vCW.severity -
        cfgReverseW.weights.coefficient_per_minute ≤ vCW.weight) := by
  have hD := (violation_weight_bounds cfgNormalW).1 ⟨"c1", "N", []⟩ 100 vDW
    (by norm_num [checkDuration, getSeverity, getSeverityT, truncQ,
      thresholdOf, calculateWeight, baseWeight, cfgNormalW, vDW])
  have hJ := (violation_weight_bounds cfgNormalW).2.1 ⟨"j1", "J", []⟩ 100 vJW
    (by norm_num)
    (by norm_num [checkJudgingDuration, getSeverity, getSeverityT, truncQ,
      thresholdOf, calculateWeight, baseWeight, cfgNormalW, vJW])
  have hG := (violation_weight_bounds cfgNormalW).2.2.1 ⟨"c1", "N", []⟩
    ⟨0, 50, 50, none⟩ ⟨150, 200, 50, none⟩ vGW
    (by norm_num)
    (by
      have h1 : getSeverity cfgNormalW
          ((⟨150, 200, 50, none⟩ : Performance).start_time -
            (⟨0, 50, 50, none⟩ : Performance).end_time) false =
          some .critical := by
        norm_num [getSeverity, getSeverityT, truncQ, cfgNormalW]
      unfold gapCheckPair
      rw [h1]
      norm_num [thresholdOf, calculateWeight, baseWeight, cfgNormalW, vGW])
  have hC := (violation_weight_bounds cfgReverseW).2.2.2 ⟨"c1", "N", []⟩
    ⟨0, 60, 60, some ⟨"Latin", "L1"⟩⟩ ⟨64, 90, 26, some ⟨"Standard", "S1"⟩⟩ vCW
    (by
      norm_num [costumeCheckPair, eligiblePair, getSeverity, getSeverityT,
        truncQ, thresholdOf, calculateWeight, baseWeight, cfgReverseW, vCW]
      intro h
      exact absurd h (by decide))
  exact ⟨⟨hD.1, hD.2 (by norm_num [cfgNormalW])⟩,
    ⟨hJ.1, hJ.2 (by norm_num [cfgNormalW])⟩,
    ⟨hG.1, hG.2 (by norm_num [cfgNormalW])⟩,
    ⟨hC.1, hC.2 (by norm_num [cfgReverseW])⟩⟩

/-! ## Success of `Except` computations -/

/-- Bind on a successful `Except` steps to the continuation. -/
theorem exceptBind_ok {α β : Type} (a : α) (k : α → Except String β) :
    (Except.ok a >>= k) = k a := rfl

/-- Bind on a failed `Except` keeps the error. -/
theorem exceptBind_error {α β : Type} (e : String) (k : α → Except String β) :
    ((Except.error e : Except String α) >>= k) = Except.error e := rfl

/-- `pure` is `ok`. -/
theorem exceptPure {α : Type} (a : α) :
    (pure a : Except String α) = Except.ok a := rfl

/-- `isOkE` unfolded. -/
theorem isOkE_iff {α : Type} (e : Except String α) :
    isOkE e ↔ ∃ r, e = .ok r := by
  cases e <;> simp [isOkE]

/-- A per-item loop whose every iteration succeeds, succeeds. -/
theorem collectE_isOk {α : Type} (f : α → Except String (Option Violation))
    (l : List α) (hf : ∀ a ∈ l, isOkE (f a)) : isOkE (collectE f l) := by
  induction l with
  | nil => exact trivial
  | cons a as ih =>
    have ha := hf a (List.mem_cons_self a as)
    cases hfa : f a with
    | error e => rw [hfa] at ha; exact absurd ha (by simp [isOkE])
    | ok r =>
      have has := ih fun b hb => hf b (List.mem_cons_of_mem a hb)
      cases hcs : collectE f as with
      | error e => rw [hcs] at has; exact absurd has (by simp [isOkE])
      | ok vs =>
        show isOkE (collectE f (a :: as))
        rw [collectE, hfa, exceptBind_ok, hcs, exceptBind_ok]
        exact trivial

/-- A per-entity loop whose every iteration succeeds, succeeds. -/
theorem concatMapE_isOk {α : Type} (f : α → Except String (List Violation))
    (l : List α) (hf : ∀ a ∈ l, isOkE (f a)) : isOkE (concatMapE f l) := by
  induction l with
  | nil => exact trivial
  | cons a as ih =>
    have ha := hf a (List.mem_cons_self a as)
    cases hfa : f a with
    | error e => rw [hfa] at ha; exact absurd ha (by simp [isOkE])
    | ok r =>
      have has := ih fun b hb => hf b (List.mem_cons_of_mem a hb)
      cases hcs : concatMapE f as with
      | error e => rw [hcs] at has; exact absurd has (by simp [isOkE])
      | ok vs =>
        rw [concatMapE, hfa, exceptBind_ok, hcs, exceptBind_ok]
        exact trivial

/-- With `thresholds` and `weights` present, `_check_duration` cannot
raise. -/
theorem checkDurationE_isOk {cfg : PartialRuleConfig} {t : Thresholds}
    {w : Weights} (ht : cfg.thresholds = some t) (hw : cfg.weights = some w)
    (c : Competitor) (d : ℚ) : isOkE (checkDurationE cfg c d) := by
  have h1 : getSeverityE cfg d false = .ok (getSeverityT t d false) := by
    unfold getSeverityE; rw [ht]
  have h2 : thresholdsE cfg = .ok t := by
    unfold thresholdsE; rw [ht]
  unfold checkDurationE
  rw [h1, exceptBind_ok]
  cases hs : getSeverityT t d false with
  | none => exact trivial
  | some sev =>
    rw [h2]
    unfold calculateWeightE
    rw [hw]
    exact trivial

/-- With `thresholds` and `weights` present, `_check_judging_duration`
cannot raise. -/
theorem checkJudgingDurationE_isOk {cfg : PartialRuleConfig} {t : Thresholds}
    {w : Weights} (ht : cfg.thresholds = some t) (hw : cfg.weights = some w)
    (j : Jury) (d : ℚ) : isOkE (checkJudgingDurationE cfg j d) := by
  have h1 : getSeverityE cfg d false = .ok (getSeverityT t d false) := by
    unfold getSeverityE; rw [ht]
  have h2 : thresholdsE cfg = .ok t := by
    unfold thresholdsE; rw [ht]
  unfold checkJudgingDurationE
  rw [h1, exceptBind_ok]
  cases hs : getSeverityT t d false with
  | none => exact trivial
  | some sev =>
    rw [h2]
    unfold calculateWeightE
    rw [hw]
    exact trivial

/-- With every key present, a costume pair check cannot raise. -/
theorem costumeCheckPairE_isOk {cfg : PartialRuleConfig} {t : Thresholds}
    {w : Weights} {m : ℚ} (ht : cfg.thresholds = some t)
    (hw : cfg.weights = some w) (hm : cfg.min_gap_minutes = some m)
    (ds : List String) (c : Competitor) (curr next_perf : Performance) :
    isOkE (costumeCheckPairE cfg ds c curr next_perf) := by
  have h1 : getSeverityE cfg (next_perf.start_time - curr.end_time) true =
      .ok (getSeverityT t (next_perf.start_time - curr.end_time) true) := by
    unfold getSeverityE; rw [ht]
  have h2 : thresholdsE cfg = .ok t := by
    unfold thresholdsE; rw [ht]
  have h4 : minGapE cfg = .ok m := by
    unfold minGapE; rw [hm]
  unfold costumeCheckPairE
  split_ifs with he
  · rw [h1, exceptBind_ok]
    cases hs : getSeverityT t (next_perf.start_time - curr.end_time) true with
    | none => exact trivial
    | some sev =>
      rw [h2, h4]
      unfold calculateWeightE
      rw [hw]
      exact trivial
  · exact trivial

/-- With `thresholds` and `weights` present, a gap pair check cannot
raise. -/
theorem gapCheckPairE_isOk {cfg : PartialRuleConfig} {t : Thresholds}
    {w : Weights} (ht : cfg.thresholds = some t) (hw : cfg.weights = some w)
    (c : Competitor) (curr next_perf : Performance) :
    isOkE (gapCheckPairE cfg c curr next_perf) := by
  have h1 : getSeverityE cfg (next_perf.start_time - curr.end_time) false =
      .ok (getSeverityT t (next_perf.start_time - curr.end_time) false) := by
    unfold getSeverityE; rw [ht]
  have h2 : thresholdsE cfg = .ok t := by
    unfold thresholdsE; rw [ht]
  unfold gapCheckPairE
  rw [h1, exceptBind_ok]
  cases hs : getSeverityT t (next_perf.start_time - curr.end_time) false with
  | none => exact trivial
  | some sev =>
    rw [h2]
    unfold calculateWeightE
    rw [hw]
    exact trivial

/-- With `thresholds`/`weights` present, the dancing rule's check cannot
raise on any graph. -/
theorem dancingCheckE_isOk {cfg : PartialRuleConfig} {t : Thresholds}
    {w : Weights} (ht : cfg.thresholds = some t) (hw : cfg.weights = some w)
    (g : ScheduleGraph) : isOkE (maxContinuousDancingCheckE cfg g) := by
  unfold maxContinuousDancingCheckE
  split_ifs with hdis
  · refine concatMapE_isOk _ _ fun c _ => ?_
    split_ifs with hlen
    · exact trivial
    · exact collectE_isOk _ _ fun b _ => checkDurationE_isOk ht hw c b.1
  · exact trivial

/-- With `thresholds`/`weights` present, the judging rule's check cannot
raise on any graph. -/
theorem judgingCheckE_isOk {cfg : PartialRuleConfig} {t : Thresholds}
    {w : Weights} (ht : cfg.thresholds = some t) (hw : cfg.weights = some w)
    (g : ScheduleGraph) : isOkE (maxContinuousJudgingCheckE cfg g) := by
  unfold maxContinuousJudgingCheckE
  split_ifs with hdis
  · refine concatMapE_isOk _ _ fun j _ => ?_
    split_ifs with hemp
    · exact trivial
    · exact collectE_isOk _ _ fun b _ => checkJudgingDurationE_isOk ht hw j b.1
  · exact trivial

/-- With every key present, the costume rule's check cannot raise on any
graph. -/
theorem costumeCheckE_isOk {cfg : PartialRuleConfig} {t : Thresholds}
    {w : Weights} {ds : List String} {m : ℚ} (ht : cfg.thresholds = some t)
    (hw : cfg.weights = some w) (hd : cfg.disciplines = some ds)
    (hm : cfg.min_gap_minutes = some m) (g : ScheduleGraph) :
    isOkE (costumeChangeTimeCheckE cfg g) := by
  unfold costumeChangeTimeCheckE disciplinesE
  split_ifs with hdis
  · rw [hd, exceptBind_ok]
    exact concatMapE_isOk _ _ fun c _ =>
      collectE_isOk _ _ fun pq _ =>
        costumeCheckPairE_isOk ht hw hm ds c pq.1 pq.2
  · exact trivial

/-- With `thresholds`/`weights` present, the gap rule's check cannot raise
on any graph. -/
theorem gapCheckE_isOk {cfg : PartialRuleConfig} {t : Thresholds}
    {w : Weights} (ht : cfg.thresholds = some t) (hw : cfg.weights = some w)
    (g : ScheduleGraph) : isOkE (maxGapBetweenPerformancesCheckE cfg g) := by
  unfold maxGapBetweenPerformancesCheckE
  split_ifs with hdis
  · refine concatMapE_isOk _ _ fun c _ => ?_
    split_ifs with hlen
    · exact trivial
    · exact collectE_isOk _ _ fun pq _ => gapCheckPairE_isOk ht hw c pq.1 pq.2
  · exact trivial

/-- With every key of every loaded section present, `analyze_schedule`
returns a result on every graph and every (possibly missing) `general`
section. -/
theorem analyze_schedule_isOk (rules : LoadedRules)
    (general : Option GeneralConfig) (g : ScheduleGraph)
    (h : completeRules rules) :
    ∃ res, analyze_schedule rules general g = .ok res := by
  obtain ⟨ht1, hw1, ht2, hw2, hd2, hm2, ht3, hw3, ht4, hw4⟩ := h
  rcases Option.isSome_iff_exists.mp ht1 with ⟨t1, ht1'⟩
  rcases Option.isSome_iff_exists.mp hw1 with ⟨w1, hw1'⟩
  rcases Option.isSome_iff_exists.mp ht2 with ⟨t2, ht2'⟩
  rcases Option.isSome_iff_exists.mp hw2 with ⟨w2, hw2'⟩
  rcases Option.isSome_iff_exists.mp hd2 with ⟨d2, hd2'⟩
  rcases Option.isSome_iff_exists.mp hm2 with ⟨m2, hm2'⟩
  rcases Option.isSome_iff_exists.mp ht3 with ⟨t3, ht3'⟩
  rcases Option.isSome_iff_exists.mp hw3 with ⟨w3, hw3'⟩
  rcases Option.isSome_iff_exists.mp ht4 with ⟨t4, ht4'⟩
  rcases Option.isSome_iff_exists.mp hw4 with ⟨w4, hw4'⟩
  rcases (isOkE_iff _).mp (dancingCheckE_isOk ht1' hw1' g) with ⟨v1, hv1⟩
  rcases (isOkE_iff _).mp (costumeCheckE_isOk ht2' hw2' hd2' hm2' g) with ⟨v2, hv2⟩
  rcases (isOkE_iff _).mp (judgingCheckE_isOk ht3' hw3' g) with ⟨v3, hv3⟩
  rcases (isOkE_iff _).mp (gapCheckE_isOk ht4' hw4' g) with ⟨v4, hv4⟩
  refine ⟨⟨sumWeights (v1 ++ v2 ++ v3 ++ v4),
    calculateRating (ratingThresholdsOf general)
      (sumWeights (v1 ++ v2 ++ v3 ++ v4)),
    v1 ++ v2 ++ v3 ++ v4, groupBySeverity (v1 ++ v2 ++ v3 ++ v4),
    groupByRule (v1 ++ v2 ++ v3 ++ v4)⟩, ?_⟩
  unfold analyze_schedule
  rw [hv1, exceptBind_ok, hv2, exceptBind_ok, hv3, exceptBind_ok, hv4,
    exceptBind_ok]
  rfl

/-- C5 (amended): `load_rules_from_config` fails exactly when one of the
four named rule sections is absent — nothing inside a present section is
inspected at load time, so a missing `thresholds`/`weights` key is NOT a
load-time error; it surfaces as an error during the first `analyze` that
needs the key (see the counterexample). -/
theorem load_fails_iff_section_missing (cfg : RulesFileConfig) :
    (∃ lr, load_rules_from_config cfg = .ok lr) ↔
      (cfg.max_continuous_dancing.isSome = true ∧
       cfg.costume_change_time.isSome = true ∧
       cfg.max_continuous_judging.isSome = true ∧
       cfg.max_gap_between_performances.isSome = true) := by
  cases hd : cfg.max_continuous_dancing with
  | none => simp [load_rules_from_config, hd]
  | some d =>
    cases hc : cfg.costume_change_time with
    | none => simp [load_rules_from_config, hd, hc]
    | some c =>
      cases hj : cfg.max_continuous_judging with
      | none => simp [load_rules_from_config, hd, hc, hj]
      | some j =>
        cases hg : cfg.max_gap_between_performances with
        | none => simp [load_rules_from_config, hd, hc, hj, hg]
        | some g => simp [load_rules_from_config, hd, hc, hj, hg]

/-- C5: the claim says every missing threshold/weight key is a fatal error
at load time, so `analyze` itself never fails for that reason.  False:
`load_rules_from_config` only indexes the four section names; a section
missing its `weights` key loads fine, and the analysis of a schedule that
classifies a violation under that rule then raises `KeyError: 'weights'`
in `_calculate_weight`, aborting `analyze`. -/
theorem lazy_weights_failure_counterexample :
    load_rules_from_config cfgMissingWeights = .ok loadedMissingWeights ∧
    analyze_schedule loadedMissingWeights cfgMissingWeights.general
      graphMissingWeights = .error "weights" := by
  constructor
  · rfl
  · have hsev : getSeverityT ⟨90, 60, 40⟩ 100 false = some Severity.critical := by
      norm_num [getSeverityT, truncQ]
    unfold analyze_schedule maxContinuousDancingCheckE
      costumeChangeTimeCheckE maxContinuousJudgingCheckE
      loadedMissingWeights graphMissingWeights
    simp only [Option.getD_some, not_true, if_false, ite_false, ite_true,
      List.isEmpty_cons, Bool.false_eq_true, concatMapE, collectE,
      checkJudgingDurationE, getSeverityE, thresholdsE, calculateWeightE,
      disciplinesE, blocksOf, blocksAux, sortPerfs, insertByStart,
      List.foldl, exceptBind_ok, exceptBind_error, exceptPure, hsev]

/-- C10: with the `general` section, the `schedule_rating` mapping or any
individual rating key missing, the rating computation still succeeds and
behaves exactly as if the missing keys had been replaced by the defaults
`excellent=0, good=100, acceptable=300, poor=600`; and `analyze` on a
configuration whose rule sections are complete returns a full result for
every graph, whatever the `general` section says (including its complete
absence). -/
theorem rating_defaults_total (t : RatingThresholds) (w : ℚ) :
    calculateRating t w =
      calculateRating ⟨some (t.excellent.getD 0), some (t.good.getD 100),
        some (t.acceptable.getD 300), some (t.poor.getD 600)⟩ w ∧
    calculateRating (ratingThresholdsOf none) w =
      calculateRating ⟨some 0, some 100, some 300, some 600⟩ w ∧
    (∀ (rules : LoadedRules) (general : Option GeneralConfig)
        (g : ScheduleGraph), completeRules rules →
      ∃ res, analyze_schedule rules general g = .ok res) :=
  ⟨rfl, rfl, fun rules general g h => analyze_schedule_isOk rules general g h⟩

/-- C10 witness: concrete partial thresholds (only `good = 50` present),
weight 30, and an analysis with full rule sections, an absent `general`
section and an empty graph. -/
theorem rating_defaults_total_witness :
    calculateRating ⟨none, some 50, none, none⟩ 30 =
      calculateRating ⟨some 0, some 50, some 300, some 600⟩ 30 ∧
    calculateRating (ratingThresholdsOf none) 30 =
      calculateRating ⟨some 0, some 100, some 300, some 600⟩ 30 ∧
    ∃ res, analyze_schedule fullRulesW none ⟨[], []⟩ = .ok res := by
  have h := rating_defaults_total ⟨none, some 50, none, none⟩ 30
  exact ⟨h.1, h.2.1,
    h.2.2 fullRulesW none ⟨[], []⟩ (by simp [completeRules, fullRulesW])⟩

end ScheduleApp
